import Mathlib

/-!
Shallow embedding of the koding/logging Go package (src/logging.go).

Modelling conventions:
* Go strings are Lean `String`s (ASCII throughout, so Go's byte slicing
  agrees with character slicing).
* `time.Time` values are represented by their `fmt.Sprint` rendering,
  because the code only ever looks at `fmt.Sprint(c.Time)[:19]`.
* A call to `runtime.Caller` is a parameter `Option (String × Int)`:
  `none` models the lookup failing (`ok == false`).
* A handler's `Log` invocation is reified as a `SinkCall` value; a leveled
  logger method returns `Option SinkCall` (`none` when suppressed).
* `fmt.Sprintf` is modelled for string operands and the verbs `%s` and
  `%%`, including Go's `%!s(MISSING)` and `%!(EXTRA ...)` behaviour;
  these are the only verbs the claims exercise.
-/

namespace Logging

/-- The six logging levels of the `Level` enum, `CRITICAL Level = iota` .. `DEBUG`. -/
inductive Level where
  | CRITICAL
  | ERROR
  | WARNING
  | NOTICE
  | INFO
  | DEBUG
deriving DecidableEq

/-- The numeric value of a `Level` constant (`iota` in the Go source). -/
def levelNum : Level → Nat
  | .CRITICAL => 0
  | .ERROR => 1
  | .WARNING => 2
  | .NOTICE => 3
  | .INFO => 4
  | .DEBUG => 5

/-- The `LevelNames` lookup table. -/
def LevelNames : Level → String
  | .CRITICAL => "CRITICAL"
  | .ERROR => "ERROR"
  | .WARNING => "WARNING"
  | .NOTICE => "NOTICE"
  | .INFO => "INFO"
  | .DEBUG => "DEBUG"

/-- The `LevelColors` lookup table, with the `Color` constants already
resolved to their numeric values (`BLACK Color = iota + 30`, so
MAGENTA = 35, RED = 31, YELLOW = 33, GREEN = 32, WHITE = 37, CYAN = 36). -/
def LevelColors : Level → Nat
  | .CRITICAL => 35
  | .ERROR => 31
  | .WARNING => 33
  | .NOTICE => 32
  | .INFO => 37
  | .DEBUG => 36

/-- Go `strings.HasSuffix s suf`. -/
def goHasSuffix (s suf : String) : Bool :=
  s.data.drop (s.data.length - suf.data.length) == suf.data

/-- Check that the second string begins the first (reference predicate for
the byte-level bracketing claims). -/
def strStarts (s p : String) : Bool :=
  s.data.take p.data.length == p.data

/-- Go byte slicing `s[:n]` (ASCII). -/
def strTake (n : Nat) (s : String) : String :=
  String.mk (s.data.take n)

/-- Go's `%!(EXTRA string=a, string=b)` marker appended by `fmt.Sprintf`
when arguments remain after the format is consumed. -/
def extraMarker (args : List String) : String :=
  "%!(EXTRA " ++ String.intercalate ", " (args.map (fun a => "string=" ++ a)) ++ ")"

/-- Character-level worker for the `fmt.Sprintf` model. -/
def sprintfAux : List Char → List String → List Char
  | [], [] => []
  | [], a :: as => (extraMarker (a :: as)).data
  | '%' :: 's' :: rest, a :: as => a.data ++ sprintfAux rest as
  | '%' :: 's' :: rest, [] => "%!s(MISSING)".data ++ sprintfAux rest []
  | '%' :: '%' :: rest, as => '%' :: sprintfAux rest as
  | c :: rest, as => c :: sprintfAux rest as

/-- Model of `fmt.Sprintf` restricted to string operands and the verbs
`%s` and `%%` (all that the claims exercise), with Go's missing- and
extra-argument markers. -/
def sprintf (format : String) (args : List String) : String :=
  String.mk (sprintfAux format.data args)

/-- The `Context` struct: information about one log message. -/
structure Context where
  Name : String
  Level : Level
  Time : String
  Filename : String
  Line : Int
deriving DecidableEq

/-- One invocation of a handler's `Log(format, args, ctx)`. -/
structure SinkCall where
  format : String
  args : List String
  ctx : Context
deriving DecidableEq

/-- The `logger` struct (its `Handler` field is factored out: leveled
methods return the `SinkCall` the handler would receive, if any). -/
structure logger where
  Name : String
  Level : Logging.Level
deriving DecidableEq

/-- Lines 155-158 of `logger.log`: append a missing newline at the end of
the format template. -/
def addMissingNewline (format : String) : String :=
  if goHasSuffix format "\n" then format else format ++ "\n"

/-- `logger.log`: append the missing newline, resolve the caller's frame
(`"???"` and line `0` when `runtime.Caller` fails), build the `Context`
and hand everything to the handler. -/
def logger.log (l : logger) (now : String) (caller : Option (String × Int))
    (level : Logging.Level) (format : String) (args : List String) : SinkCall :=
  let format := addMissingNewline format
  let file := match caller with
    | none => "???"
    | some (f, _) => f
  let line := match caller with
    | none => 0
    | some (_, n) => n
  { format := format
    args := args
    ctx := { Name := l.Name, Level := level, Time := now, Filename := file, Line := line } }

/-- `logger.Critical`: `if l.Level >= CRITICAL { l.log(CRITICAL, ...) }`. -/
def logger.Critical (l : logger) (now : String) (caller : Option (String × Int))
    (format : String) (args : List String) : Option SinkCall :=
  if levelNum Logging.Level.CRITICAL ≤ levelNum l.Level then
    some (l.log now caller Logging.Level.CRITICAL format args)
  else none

/-- `logger.Error`: `if l.Level >= ERROR { l.log(ERROR, ...) }`. -/
def logger.Error (l : logger) (now : String) (caller : Option (String × Int))
    (format : String) (args : List String) : Option SinkCall :=
  if levelNum Logging.Level.ERROR ≤ levelNum l.Level then
    some (l.log now caller Logging.Level.ERROR format args)
  else none

/-- `logger.Warning`: `if l.Level >= WARNING { l.log(WARNING, ...) }`. -/
def logger.Warning (l : logger) (now : String) (caller : Option (String × Int))
    (format : String) (args : List String) : Option SinkCall :=
  if levelNum Logging.Level.WARNING ≤ levelNum l.Level then
    some (l.log now caller Logging.Level.WARNING format args)
  else none

/-- `logger.Notice`: `if l.Level >= NOTICE { l.log(NOTICE, ...) }`. -/
def logger.Notice (l : logger) (now : String) (caller : Option (String × Int))
    (format : String) (args : List String) : Option SinkCall :=
  if levelNum Logging.Level.NOTICE ≤ levelNum l.Level then
    some (l.log now caller Logging.Level.NOTICE format args)
  else none

/-- `logger.Info`: `if l.Level >= INFO { l.log(INFO, ...) }`. -/
def logger.Info (l : logger) (now : String) (caller : Option (String × Int))
    (format : String) (args : List String) : Option SinkCall :=
  if levelNum Logging.Level.INFO ≤ levelNum l.Level then
    some (l.log now caller Logging.Level.INFO format args)
  else none

/-- `logger.Debug`: `if l.Level >= DEBUG { l.log(DEBUG, ...) }`. -/
def logger.Debug (l : logger) (now : String) (caller : Option (String × Int))
    (format : String) (args : List String) : Option SinkCall :=
  if levelNum Logging.Level.DEBUG ≤ levelNum l.Level then
    some (l.log now caller Logging.Level.DEBUG format args)
  else none

/-- Dispatch table from a level to the corresponding leveled method,
for quantifying over the six public methods at once. -/
def levelMethod (L : Level) (l : logger) (now : String) (caller : Option (String × Int))
    (format : String) (args : List String) : Option SinkCall :=
  match L with
  | .CRITICAL => l.Critical now caller format args
  | .ERROR => l.Error now caller format args
  | .WARNING => l.Warning now caller format args
  | .NOTICE => l.Notice now caller format args
  | .INFO => l.Info now caller format args
  | .DEBUG => l.Debug now caller format args

/-- Left-justified padding to a minimum width, Go's `%-8s` with width `w`. -/
def padTo (w : Nat) (s : String) : String :=
  s ++ String.mk (List.replicate (w - s.data.length) ' ')

/-- The `prefix` helper:
`fmt.Sprintf("%s %s %-8s ", fmt.Sprint(c.Time)[:19], c.Name, LevelNames[c.Level])`. -/
def msgHeader (c : Context) : String :=
  strTake 19 c.Time ++ " " ++ c.Name ++ " " ++ padTo 8 (LevelNames c.Level) ++ " "

/-- `WriterHandler.Log`: writes `prefix(c) + fmt.Sprintf(format, args...)`. -/
def writerHandlerLog (format : String) (args : List String) (c : Context) : String :=
  msgHeader c ++ sprintf format args

/-- Run a reified handler invocation through `WriterHandler.Log`. -/
def runWriter (call : SinkCall) : String :=
  writerHandlerLog call.format call.args call.ctx

/-- The ANSI SGR color-select escape `fmt.Sprintf("\033[%dm", code)`. -/
def ansiSelect (code : Nat) : String :=
  "\x1b[" ++ toString code ++ "m"

/-- `ConsoleHandler.Log`: the color-select escape for the context's level,
then the `WriterHandler` output, then the reset escape `"\033[0m"`,
written to the stream in that order. -/
def consoleHandlerLog (format : String) (args : List String) (c : Context) : String :=
  ansiSelect (LevelColors c.Level) ++ writerHandlerLog format args c ++ "\x1b[0m"

/-- The six severity-specific calls of the `syslog.Writer` facility. -/
inductive SyslogFn where
  | crit
  | err
  | warning
  | notice
  | info
  | debug
deriving DecidableEq

/-- The `switch c.Level` of `SyslogHandler.Log`, selecting the facility call. -/
def syslogFnFor : Level → SyslogFn
  | .CRITICAL => .crit
  | .ERROR => .err
  | .WARNING => .warning
  | .NOTICE => .notice
  | .INFO => .info
  | .DEBUG => .debug

/-- `SyslogHandler.Log`: dispatch to the facility call selected by the
context's level, passing `fmt.Sprintf(format, args...)`. -/
def syslogHandlerLog (format : String) (args : List String) (c : Context) :
    SyslogFn × String :=
  (syslogFnFor c.Level, sprintf format args)

/-- `MultiHandler.Log` in the fault-free case: every child handler (of any
type `α`) receives one `Log` invocation with the same format string,
argument list and context; the `sync.WaitGroup` join means the call
returns with all of these invocations completed. -/
def multiHandlerLog {α : Type} (handlers : List α) (format : String)
    (args : List String) (ctx : Context) : List (α × SinkCall) :=
  handlers.map (fun h => (h, { format := format, args := args, ctx := ctx }))

/-- `MultiHandler.Log` under Go's fault semantics: each child runs in a
goroutine with no `recover`, so an unrecovered panic in any child aborts
the whole program and the call never returns normally. A child is modelled
by its response to the invocation (`Except.error` = the child panics);
which side effects of the other children complete before the abort is
scheduler-dependent and not modelled. -/
def multiHandlerLogGo (children : List (SinkCall → Except String String))
    (format : String) (args : List String) (ctx : Context) :
    Except String (List String) :=
  children.mapM (fun child => child { format := format, args := args, ctx := ctx })

/-- A well-behaved child sink: formats and returns the message. -/
def okChild : SinkCall → Except String String :=
  fun call => Except.ok (sprintf call.format call.args)

/-- A child sink whose `Log` panics. -/
def crashingChild : SinkCall → Except String String :=
  fun _ => Except.error "child sink fault"

/-- Observable events of a `Fatal` or `Panic` run. -/
inductive Event where
  | logged : SinkCall → Event
  | closed : Event
  | panicked : String → Event
  | exited : Nat → Event
deriving DecidableEq

/-- Recognize a process-exit event. -/
def isExitEvent : Event → Bool
  | .exited _ => true
  | _ => false

/-- The handler events produced by `l.Critical(format, args...)`. -/
def criticalEvents (l : logger) (now : String) (caller : Option (String × Int))
    (format : String) (args : List String) : List Event :=
  match l.Critical now caller format args with
  | some call => [Event.logged call]
  | none => []

/-- `logger.Panic`: `l.Critical(format, args...)`, then `l.Close()`, then
`panic(fmt.Sprintf(format, args...))`. -/
def panicRun (l : logger) (now : String) (caller : Option (String × Int))
    (format : String) (args : List String) : List Event :=
  criticalEvents l now caller format args ++
    [Event.closed, Event.panicked (sprintf format args)]

/-- `logger.Fatal`: `l.Critical(format, args...)`, then `l.Close()`, then
`os.Exit(1)`. -/
def fatalRun (l : logger) (now : String) (caller : Option (String × Int))
    (format : String) (args : List String) : List Event :=
  criticalEvents l now caller format args ++ [Event.closed, Event.exited 1]

/-- A string ends in exactly one newline: it ends with one newline
character and not with two. -/
def endsInOneNewline (s : String) : Bool :=
  goHasSuffix s "\n" && !goHasSuffix s "\n\n"

/-- Appending a string leaves it as a suffix of the result. -/
theorem goHasSuffix_append (t suf : String) : goHasSuffix (t ++ suf) suf = true := by
  have h : t.data.length + suf.data.length - suf.data.length = t.data.length := by
    omega
  simp [goHasSuffix, List.length_append, h, List.drop_left]

/-- A string begins the result of appending anything to it. -/
theorem strStarts_append (p t : String) : strStarts (p ++ t) p = true := by
  simp [strStarts, List.take_left]

/-- C1: a leveled call at level L on a logger with threshold T delivers a
message to the configured sink if and only if L is numerically at most T;
in particular, with threshold INFO, DEBUG is suppressed and each of
CRITICAL, ERROR, WARNING, NOTICE and INFO is emitted. -/
theorem leveled_emission_iff (T L : Level) (name now : String)
    (caller : Option (String × Int)) (format : String) (args : List String) :
    ((levelMethod L { Name := name, Level := T } now caller format args).isSome = true
      ↔ levelNum L ≤ levelNum T)
    ∧ levelMethod Level.DEBUG { Name := name, Level := Level.INFO }
        now caller format args = none
    ∧ (levelMethod Level.CRITICAL { Name := name, Level := Level.INFO }
        now caller format args).isSome = true
    ∧ (levelMethod Level.ERROR { Name := name, Level := Level.INFO }
        now caller format args).isSome = true
    ∧ (levelMethod Level.WARNING { Name := name, Level := Level.INFO }
        now caller format args).isSome = true
    ∧ (levelMethod Level.NOTICE { Name := name, Level := Level.INFO }
        now caller format args).isSome = true
    ∧ (levelMethod Level.INFO { Name := name, Level := Level.INFO }
        now caller format args).isSome = true := by
  refine ⟨?_, ?_, ?_, ?_, ?_, ?_, ?_⟩ <;>
    cases L <;> cases T <;>
      simp [levelMethod, logger.Critical, logger.Error, logger.Warning,
        logger.Notice, logger.Info, logger.Debug, levelNum]

/-- C9: a leveled call strictly below the threshold is a no-op: the sink
is never invoked, so no context is built and no formatting happens (in the
model, the method returns `none` without ever reaching `logger.log`). -/
theorem below_threshold_noop (T L : Level) (h : levelNum T < levelNum L)
    (name now : String) (caller : Option (String × Int))
    (format : String) (args : List String) :
    levelMethod L { Name := name, Level := T } now caller format args = none := by
  cases L <;> cases T <;>
    simp_all [levelMethod, logger.Critical, logger.Error, logger.Warning,
      logger.Notice, logger.Info, logger.Debug, levelNum]

/-- Witness for C9: threshold INFO suppresses a DEBUG call. -/
theorem below_threshold_noop_w :
    levelNum Level.INFO < levelNum Level.DEBUG ∧
      levelMethod Level.DEBUG { Name := "svc", Level := Level.INFO }
        "2025-01-02 03:04:05 +0000 UTC" (some ("main.go", 10)) "hello" [] = none :=
  ⟨by decide,
    below_threshold_noop Level.INFO Level.DEBUG (by decide) "svc"
      "2025-01-02 03:04:05 +0000 UTC" (some ("main.go", 10)) "hello" []⟩

/-- C10: when the `runtime.Caller` lookup fails on an emitted call, the
context is still built and delivered, with the sentinel file name `"???"`
and line `0`, while name, level and timestamp are populated normally. -/
theorem caller_fail_sentinel (T L : Level) (h : levelNum L ≤ levelNum T)
    (name now format : String) (args : List String) :
    levelMethod L { Name := name, Level := T } now none format args
      = some { format := addMissingNewline format, args := args,
               ctx := { Name := name, Level := L, Time := now,
                        Filename := "???", Line := 0 } } := by
  cases L <;> cases T <;>
    simp_all [levelMethod, logger.Critical, logger.Error, logger.Warning,
      logger.Notice, logger.Info, logger.Debug, logger.log, levelNum]

/-- Witness for C10: an INFO call at threshold INFO with a failed caller
lookup is still delivered, carrying the sentinel call site. -/
theorem caller_fail_sentinel_w :
    levelNum Level.INFO ≤ levelNum Level.INFO ∧
      levelMethod Level.INFO { Name := "svc", Level := Level.INFO }
        "2025-01-02 03:04:05 +0000 UTC" none "hello" []
      = some { format := "hello\n", args := [],
               ctx := { Name := "svc", Level := Level.INFO,
                        Time := "2025-01-02 03:04:05 +0000 UTC",
                        Filename := "???", Line := 0 } } := by
  refine ⟨by decide, ?_⟩
  have h := caller_fail_sentinel Level.INFO Level.INFO (by decide) "svc"
    "2025-01-02 03:04:05 +0000 UTC" "hello" []
  rw [h]
  decide

/-- C2 counterexample: the template `"hello\n\n"` already ends in a
newline, so nothing is appended, and the writer output ends in two
newlines, refuting "the final output ends in exactly one trailing newline
for every format template". -/
theorem newline_exactly_one_cex :
    endsInOneNewline (runWriter (logger.log { Name := "svc", Level := Level.INFO }
      "2025-01-02 03:04:05 +0000 UTC" (some ("main.go", 10)) Level.INFO
      "hello\n\n" [])) = false := by
  decide

/-- C2 (amended): a newline is appended to the template exactly when it
does not already end in one, so the delivered template always ends in a
newline; logging `"hello"` and logging `"hello\n"` both produce writer
output ending in exactly one newline. -/
theorem newline_policy (format : String) :
    (goHasSuffix format "\n" = true → addMissingNewline format = format)
    ∧ (goHasSuffix format "\n" = false → addMissingNewline format = format ++ "\n")
    ∧ goHasSuffix (addMissingNewline format) "\n" = true
    ∧ endsInOneNewline (runWriter (logger.log { Name := "svc", Level := Level.INFO }
        "2025-01-02 03:04:05 +0000 UTC" (some ("main.go", 10)) Level.INFO
        "hello" [])) = true
    ∧ endsInOneNewline (runWriter (logger.log { Name := "svc", Level := Level.INFO }
        "2025-01-02 03:04:05 +0000 UTC" (some ("main.go", 10)) Level.INFO
        "hello\n" [])) = true := by
  refine ⟨?_, ?_, ?_, by decide, by decide⟩
  · intro h
    simp [addMissingNewline, h]
  · intro h
    simp [addMissingNewline, h]
  · by_cases h : goHasSuffix format "\n" = true
    · simp [addMissingNewline, h]
    · simp only [addMissingNewline, h, if_false, Bool.false_eq_true]
      exact goHasSuffix_append format "\n"

/-- Witness for C2 (amended): the appending policy evaluated on the two
specified templates. -/
theorem newline_policy_w :
    goHasSuffix "hello" "\n" = false
    ∧ addMissingNewline "hello" = "hello" ++ "\n"
    ∧ goHasSuffix "hi\n" "\n" = true
    ∧ addMissingNewline "hi\n" = "hi\n" :=
  ⟨by decide, (newline_policy "hello").2.1 (by decide), by decide,
    (newline_policy "hi\n").1 (by decide)⟩

/-- C4: one call to the fan-out sink's `Log` over N children yields a list
of exactly N child invocations, the i-th child receiving the i-th
invocation, every one carrying the identical format string, argument list
and context; the returned list reifies the state after the `WaitGroup`
join, when all children's `Log` calls have completed. -/
theorem multiHandler_delivers_all {α : Type} (handlers : List α) (format : String)
    (args : List String) (ctx : Context) :
    (multiHandlerLog handlers format args ctx).length = handlers.length
    ∧ ∀ i : Nat, (multiHandlerLog handlers format args ctx)[i]?
        = (handlers[i]?).map
            (fun h => (h, { format := format, args := args, ctx := ctx })) := by
  refine ⟨by simp [multiHandlerLog], fun i => ?_⟩
  simp [multiHandlerLog]

/-- C3: the code as written does not isolate a child fault. Each child of
`MultiHandler.Log` runs in a goroutine with no `recover`, so one child's
panic aborts the whole program instead of letting the call return: with a
well-behaved first child and a panicking second child, the fan-out call
ends in the fault, not in a normal return. -/
theorem multiHandler_fault_crashes :
    multiHandlerLogGo [okChild, crashingChild] "hello" []
      { Name := "svc", Level := Level.ERROR,
        Time := "2025-01-02 03:04:05 +0000 UTC",
        Filename := "main.go", Line := 10 }
      = Except.error "child sink fault" := by
  rfl

/-- C7: `SyslogHandler.Log` maps the six levels to the six distinct
severity-specific facility calls (CRITICAL to crit, ..., DEBUG to debug),
a total injective mapping, and passes the formatted message along. -/
theorem syslog_dispatch_total_injective :
    syslogFnFor Level.CRITICAL = SyslogFn.crit
    ∧ syslogFnFor Level.ERROR = SyslogFn.err
    ∧ syslogFnFor Level.WARNING = SyslogFn.warning
    ∧ syslogFnFor Level.NOTICE = SyslogFn.notice
    ∧ syslogFnFor Level.INFO = SyslogFn.info
    ∧ syslogFnFor Level.DEBUG = SyslogFn.debug
    ∧ Function.Injective syslogFnFor
    ∧ ∀ (format : String) (args : List String) (c : Context),
        syslogHandlerLog format args c = (syslogFnFor c.Level, sprintf format args) := by
  refine ⟨rfl, rfl, rfl, rfl, rfl, rfl, ?_, fun _ _ _ => rfl⟩
  intro a b h
  cases a <;> cases b <;> first | rfl | exact SyslogFn.noConfusion h

/-- C8: `Panic` first emits the message at CRITICAL through the normal
threshold check (which every enumerated threshold passes, CRITICAL being
numerically least), then closes the sink, then raises a panic carrying the
formatted message; no process-exit event occurs, unlike `Fatal`, whose run
ends in `os.Exit(1)`. -/
theorem panic_logs_closes_raises (l : logger) (now : String)
    (caller : Option (String × Int)) (format : String) (args : List String) :
    panicRun l now caller format args
      = [Event.logged (l.log now caller Level.CRITICAL format args),
         Event.closed, Event.panicked (sprintf format args)]
    ∧ (panicRun l now caller format args).filter isExitEvent = []
    ∧ (fatalRun l now caller format args).filter isExitEvent = [Event.exited 1] := by
  have hc : l.Critical now caller format args
      = some (l.log now caller Level.CRITICAL format args) := by
    simp [logger.Critical, levelNum]
  refine ⟨?_, ?_, ?_⟩ <;>
    simp [panicRun, fatalRun, criticalEvents, hc, isExitEvent, List.filter]

/-- C5: the end-to-end scenario: a logger named "svc" at threshold INFO
logging `Info("start %s", "ok")` through the stream sink writes exactly
the line: the 19-character second-precision timestamp, the logger name,
the level name left-justified in an 8-character field, the formatted
message and one newline. -/
theorem wire_format_scenario (ts fn : String) (ln : Int) (_h : 19 ≤ ts.data.length) :
    (logger.Info { Name := "svc", Level := Level.INFO } ts (some (fn, ln))
        "start %s" ["ok"]).map runWriter
      = some (strTake 19 ts ++ " svc INFO     start ok\n") := by
  simp only [logger.Info, levelNum, Nat.le_refl, if_true, Option.map_some]
  refine congrArg some (String.ext ?_)
  simp only [runWriter, writerHandlerLog, msgHeader, logger.log, strTake,
    String.data_append, List.append_assoc]
  exact congrArg (ts.data.take 19 ++ ·) (by decide)

/-- Witness for C5: the scenario evaluated at a concrete timestamp
rendering. -/
theorem wire_format_scenario_w :
    19 ≤ ("2025-01-02 03:04:05.999999999 +0000 UTC" : String).data.length
    ∧ (logger.Info { Name := "svc", Level := Level.INFO }
        "2025-01-02 03:04:05.999999999 +0000 UTC" (some ("main.go", 10))
        "start %s" ["ok"]).map runWriter
      = some "2025-01-02 03:04:05 svc INFO     start ok\n" := by
  refine ⟨by decide, ?_⟩
  have h := wire_format_scenario "2025-01-02 03:04:05.999999999 +0000 UTC"
    "main.go" 10 (by decide)
  rw [h]
  decide

/-- C6: console sink output is the ANSI color-select escape for the color
assigned to the context's level, then the prefixed formatted message, then
the ANSI reset escape; at level ERROR the select code is 31 (RED). -/
theorem console_ansi_bracketing (format : String) (args : List String) (c : Context) :
    consoleHandlerLog format args c
        = ansiSelect (LevelColors c.Level) ++ (writerHandlerLog format args c ++ "\x1b[0m")
    ∧ strStarts (consoleHandlerLog format args c) (ansiSelect (LevelColors c.Level)) = true
    ∧ goHasSuffix (consoleHandlerLog format args c) "\x1b[0m" = true
    ∧ (c.Level = Level.ERROR →
        strStarts (consoleHandlerLog format args c) "\x1b[31m" = true) := by
  refine ⟨String.append_assoc .., ?_, ?_, ?_⟩
  · simp only [consoleHandlerLog, String.append_assoc]
    exact strStarts_append ..
  · exact goHasSuffix_append ..
  · intro h
    simp only [consoleHandlerLog, h]
    rw [show ansiSelect (LevelColors Level.ERROR) = "\x1b[31m" from by decide,
      String.append_assoc]
    exact strStarts_append ..

/-- Witness for C6: a concrete ERROR-level context whose console output
starts with the RED select escape. -/
theorem console_ansi_bracketing_w :
    ({ Name := "svc", Level := Level.ERROR, Time := "t", Filename := "main.go",
        Line := 10 } : Context).Level = Level.ERROR
    ∧ strStarts (consoleHandlerLog "boom" []
        { Name := "svc", Level := Level.ERROR, Time := "t", Filename := "main.go",
          Line := 10 }) "\x1b[31m" = true :=
  ⟨rfl, (console_ansi_bracketing "boom" []
      { Name := "svc", Level := Level.ERROR, Time := "t", Filename := "main.go",
        Line := 10 }).2.2.2 rfl⟩

end Logging
